import Mathlib

/-!
Verification of crash-python's x86_64 architecture model
(`crash/arch/x86_64.py`) and device-mapper bio decoders
(`crash/subsystem/storage/device_mapper.py`) against their
natural-language specification.

The embedding is shallow: gdb values are machine words (`Nat`), the
memory snapshot of the crashed kernel is a function from addresses to
words, a thread's register bank is a partial map from register names to
words, and each Python method becomes a Lean function on that data.
-/

namespace CrashPython

/-! ## Machine model

`unsigned long` on x86_64 is 8 bytes; gdb pointer arithmetic on an
`unsigned long *` moves in 8-byte steps and wraps modulo 2^64. -/

abbrev Addr := Nat

def wordSize : Nat := 8

def W64 : Nat := 2 ^ 64

/-- Pointer subtraction of `bytes` bytes from address `p`, wrapping
modulo the 64-bit address space, as gdb pointer arithmetic does. -/
def ptrSubBytes (p bytes : Nat) : Nat := (p + (W64 - bytes % W64)) % W64

/-- A memory snapshot: the machine word read at a byte address.  The
snapshot is immutable (post-mortem image), so it is a pure function. -/
abbrev Mem := Nat → Nat

/-! ## Register bank

`thread.registers[name].value = v` is a named write; a setup routine is
embedded as the list of writes it performs, in program order, and
`regBank` folds that list over the bank's initial contents.  A register
never written stays at its initial (undefined) contents. -/

def regWrite (bank : String → Option Nat) (w : String × Nat) : String → Option Nat :=
  fun n => if n = w.1 then some w.2 else bank n

def regBank (init : String → Option Nat) (ws : List (String × Nat)) :
    String → Option Nat :=
  ws.foldl regWrite init

/-! ## The x86_64 architecture (`crash/arch/x86_64.py`)

The constructor resolves the minimal symbol `thread_return` once; its
address is the canonical program counter for every scheduled thread of
the session.  Failure to resolve it is fatal (the constructor fails). -/

structure X8664Arch where
  /-- Attribute `self.rip`: the resolved address of the `thread_return`
  minimal symbol, looked up once in the constructor. -/
  rip : Nat

/-- Constructor `x86_64Architecture.__init__`: `gdb.lookup_minimal_symbol` is the
symbol-resolution collaborator, embedded as a partial map from symbol
names to addresses; construction fails when the symbol is absent. -/
def mkX8664Arch (lookupMinimalSymbol : String → Option Nat) : Option X8664Arch :=
  (lookupMinimalSymbol "thread_return").map (fun a => { rip := a })

/-- The task context a thread carries: `thread.info.task_struct` with its
saved-context record reached through the task field named thread, of
which only the saved stack pointer field `sp` is read by this architecture. -/
structure TaskStruct where
  thread_sp : Nat

/-- The fixed exclusion list of `setup_thread_active`. -/
def excludedRegisters : List String := ["gs_base", "orig_ax", "rflags", "fs_base"]

/-- Method `x86_64Architecture.setup_thread_active`: iterate over the task's raw
register snapshot (an association list with the dict's iteration order)
and copy every entry whose name is not excluded. -/
def setupThreadActiveWrites (regs : List (String × Nat)) : List (String × Nat) :=
  regs.filter (fun r => decide (r.1 ∉ excludedRegisters))

/-- Method `x86_64Architecture.setup_thread_scheduled`: read the saved stack
pointer from the task's saved-context record, dereference it to get the
saved frame pointer, read the five callee-saved registers at one to five
word-widths below the frame pointer, and write the ten registers in
program order.  `rbp - k` is gdb arithmetic on an `unsigned long *`, so
it moves by `k * wordSize` bytes. -/
def setupThreadScheduledWrites (arch : X8664Arch) (mem : Mem) (task : TaskStruct) :
    List (String × Nat) :=
  let rsp := task.thread_sp
  let rbp := mem rsp
  let rbx := mem (ptrSubBytes rbp (1 * wordSize))
  let r12 := mem (ptrSubBytes rbp (2 * wordSize))
  let r13 := mem (ptrSubBytes rbp (3 * wordSize))
  let r14 := mem (ptrSubBytes rbp (4 * wordSize))
  let r15 := mem (ptrSubBytes rbp (5 * wordSize))
  [("rsp", rsp), ("rbp", rbp), ("rip", arch.rip), ("rbx", rbx),
   ("r12", r12), ("r13", r13), ("r14", r14), ("r15", r15),
   ("cs", 2 * 8), ("ss", 3 * 8)]

/-- The ten register names `setup_thread_scheduled` writes, in program
order. -/
def scheduledWrittenNames : List String :=
  ["rsp", "rbp", "rip", "rbx", "r12", "r13", "r14", "r15", "cs", "ss"]

/-! ## The device-mapper decoders (`crash/subsystem/storage/device_mapper.py`)

gdb struct values are embedded as the address of the object; a pointer
value is the pointee's address (a cast to another pointer type keeps the
word unchanged); subscripting a value with a field name is a field read
answered by the heap.  The
heap is the immutable memory snapshot, so field reads are a pure
function of object address and field name. -/

/-- The decoder-visible heap: the word (value or pointer) stored in
field `f` of the object at address `a`. -/
structure Heap where
  fields : Addr → String → Nat

/-- Errors a decoder operation can raise. -/
inductive DErr where
  /-- Python `AttributeError`: an instance attribute read before any
  assignment to it. -/
  | attributeError
  /-- The spec's ResolutionError: a required symbol or type is absent. -/
  | resolutionError (name : String)
deriving DecidableEq, Repr

/-- Python attribute read of an `Option`-valued attribute: reading an
attribute never assigned fails loudly instead of yielding a value. -/
def pyGetAttr {α : Type} : Option α → Except DErr α
  | none => .error .attributeError
  | some v => .ok v

/-- Python attribute lookup for an attribute that also exists on the
class: the instance dictionary shadows the class attribute. -/
def pyLookupAttr {α : Type} (classAttr instAttr : Option α) : Option α :=
  match instAttr with
  | some v => some v
  | none => classAttr

/-- Modelled from the spec: `crash.util.symbols.Types`
(`crash/util/symbols.py`, outside the provided sources) resolves the
type names declared at class-definition time and exposes them as
attributes; per the spec's error taxonomy ("ResolutionError
(required symbol/type absent)"), asking it for a type that was never
declared fails rather than producing a type.  `declared` is the list of
attribute names the class's `Types([...])` declaration induces. -/
def typesGet (declared : List String) (attr : String) : Except DErr Unit :=
  if attr ∈ declared then .ok () else .error (.resolutionError attr)

/-- The session-wide collaborators a decoder consults: the structural
layout of the kernel under inspection and the external helpers
`block_device_name` and `decode_bio` (both outside the provided
sources, abstracted as pure functions of the snapshot). -/
structure Session where
  /-- Whether the type `dm_rq_clone_bio_info` contains a field named
  clone (the structural probe of the request decoder). -/
  rqInfoHasClone : Bool
  /-- Whether the type `dm_target_io` contains a field named clone (the
  structural probe of the bio decoder). -/
  tioHasClone : Bool
  /-- The offset of a named field inside a named type for the kernel
  build under inspection. -/
  offsetOf : String → String → Nat
  /-- Helper `block_device_name`: formats the device name of a pointer
  to a block device structure. -/
  blockDeviceName : Addr → String
  /-- Helper `decode_bio`: the recursive decode entry point that
  receives the ancestor descriptor; its result is abstracted as a
  token. -/
  decodeBio : Addr → Nat

/-- Modelled from the spec: `crash.util.container_of` (outside the
provided sources) is the "back-calculation from an embedded sub-object"
primitive — address arithmetic that locates an enclosing structure of
type `tyName` from a pointer `v` to its embedded field `fieldName`. -/
def container_of (s : Session) (v : Addr) (tyName fieldName : String) : Addr :=
  ptrSubBytes v (s.offsetOf tyName fieldName)

/-- Python hex formatting as the description templates use it:
lowercase hexadecimal digits with no prefix. -/
def hexStr (n : Nat) : String := String.mk (Nat.toDigits 16 n)

/-! ### ClonedBioReqDecoder (request-based clones) -/

/-- Which `_get_clone_bio_rq_info` strategy the structural probe
selected. -/
inductive RqGetter where
  | old
  | v3_7
deriving DecidableEq, Repr

/-- Declaration of the request decoder types, from
the line declaring a Types collection over struct dm_rq_clone_bio_info
pointer:
the attribute names that declaration makes resolvable. -/
def reqDeclaredTypes : List String := ["dm_rq_clone_bio_info_p_type"]

/-- The class attributes of `ClonedBioReqDecoder` that `__init__`
consults: `_get_clone_bio_rq_info` starts as the class-level `None`. -/
structure ReqClassState where
  getterAttr : Option RqGetter
deriving DecidableEq, Repr

def reqClassInit : ReqClassState := { getterAttr := none }

/-- One `ClonedBioReqDecoder` instance: `bio` from the constructor,
`getter` the instance attribute `_get_clone_bio_rq_info` (written by
`__init__`'s probe), `info` and `tio` the derived attributes assigned
only by `interpret()`.  Modelled from the spec for the `Decoder` base
class (outside the provided sources): derived fields are undefined
until `interpret()` runs. -/
structure ReqDecoderState where
  bio : Addr
  getter : Option RqGetter
  info : Option Addr
  tio : Option Addr
deriving DecidableEq, Repr

/-- Constructor `ClonedBioReqDecoder.__init__`: store the bio; if the attribute
`_get_clone_bio_rq_info` reads as `None`, probe the layout and assign
the chosen getter **to `self`** (an instance attribute — the class
attribute is left untouched).  Returns the class state after the call,
the new instance, and whether the structural probe ran. -/
def reqDecoderInit (cls : ReqClassState) (s : Session) (bio : Addr) :
    ReqClassState × ReqDecoderState × Bool :=
  match pyLookupAttr cls.getterAttr none with
  | some _ =>
    (cls, { bio := bio, getter := none, info := none, tio := none }, false)
  | none =>
    let g := if s.rqInfoHasClone then RqGetter.v3_7 else RqGetter.old
    (cls, { bio := bio, getter := some g, info := none, tio := none }, true)

/-- Getter `_get_clone_bio_rq_info_old`: cast the bio field `bi_private` to
`dm_rq_clone_bio_info *` (the cast keeps the pointer word). -/
def reqGetterOld (h : Heap) (bio : Addr) : Except DErr Addr := do
  let _ ← typesGet reqDeclaredTypes "dm_rq_clone_bio_info_p_type"
  pure (h.fields bio "bi_private")

/-- Getter `_get_clone_bio_rq_info_3_7`:
the back-calculation `container_of` applied to the bio itself, with the
declared clone-info pointer type and the field named clone. -/
def reqGetter_3_7 (s : Session) (_h : Heap) (bio : Addr) : Except DErr Addr := do
  let _ ← typesGet reqDeclaredTypes "dm_rq_clone_bio_info_p_type"
  pure (container_of s bio "dm_rq_clone_bio_info" "clone")

def reqGetterRun (s : Session) (h : Heap) (g : RqGetter) (bio : Addr) :
    Except DErr Addr :=
  match g with
  | .old => reqGetterOld h bio
  | .v3_7 => reqGetter_3_7 s h bio

/-- Method `ClonedBioReqDecoder.interpret`:
`self.info = self._get_clone_bio_rq_info(self.bio)`;
then set the attribute tio to the field named tio of that block. -/
def reqInterpret (cls : ReqClassState) (s : Session) (h : Heap)
    (st : ReqDecoderState) : Except DErr ReqDecoderState := do
  let g ← pyGetAttr (pyLookupAttr cls.getterAttr st.getter)
  let info ← reqGetterRun s h g st.bio
  pure { st with info := some info, tio := some (h.fields info "tio") }

/-- Method `ClonedBioReqDecoder.__str__`: the body formats the description from
the bio's address and device name but has no `return` statement, so the
call evaluates the format and yields `None`. -/
def reqStr (s : Session) (h : Heap) (st : ReqDecoderState) : Option String :=
  let _fmt := hexStr st.bio ++ " bio: Request-based Device Mapper on " ++
    s.blockDeviceName (h.fields st.bio "bi_bdev")
  none

/-- The string `ClonedBioReqDecoder.__str__` computes (and discards):
the hexadecimal bio address, the fixed description text and the device
name. -/
def reqStrComputed (s : Session) (h : Heap) (st : ReqDecoderState) : String :=
  hexStr st.bio ++ " bio: Request-based Device Mapper on " ++
    s.blockDeviceName (h.fields st.bio "bi_bdev")

/-- Method `ClonedBioReqDecoder.__next__`: decode the bio held in the
field orig of the clone-info block. -/
def reqNext (s : Session) (h : Heap) (st : ReqDecoderState) : Except DErr Nat := do
  let info ← pyGetAttr st.info
  pure (s.decodeBio (h.fields info "orig"))

/-! ### ClonedBioDecoder (bio-based clones) -/

/-- Which `_get_clone_bio_tio` strategy the structural probe selected. -/
inductive TioGetter where
  | old
  | v3_15
deriving DecidableEq, Repr

/-- Declaration of the bio decoder types, from the line declaring a
Types collection over struct dm_target_io pointer: the
attribute names that declaration makes resolvable. -/
def bioDeclaredTypes : List String := ["dm_target_io_p_type"]

/-- The class attributes of `ClonedBioDecoder` that `__init__` consults:
`_get_clone_bio_tio` starts as the class-level `None`. -/
structure BioClassState where
  getterAttr : Option TioGetter
deriving DecidableEq, Repr

def bioClassInit : BioClassState := { getterAttr := none }

/-- One `ClonedBioDecoder` instance: `bio` from the constructor,
`getter` the instance attribute `_get_clone_bio_tio`, `tio` and
`next_bio` the derived attributes assigned only by `interpret()`.
Modelled from the spec for the `Decoder` base class (outside the
provided sources): derived fields are undefined until `interpret()`
runs. -/
structure BioDecoderState where
  bio : Addr
  getter : Option TioGetter
  tio : Option Addr
  next_bio : Option Addr
deriving DecidableEq, Repr

/-- Constructor `ClonedBioDecoder.__init__`: store the bio; if the attribute
`_get_clone_bio_tio` reads as `None`, probe the layout and assign the
chosen getter **to `self`** (an instance attribute — the class
attribute is left untouched).  Returns the class state after the call,
the new instance, and whether the structural probe ran. -/
def bioDecoderInit (cls : BioClassState) (s : Session) (bio : Addr) :
    BioClassState × BioDecoderState × Bool :=
  match pyLookupAttr cls.getterAttr none with
  | some _ =>
    (cls, { bio := bio, getter := none, tio := none, next_bio := none }, false)
  | none =>
    let g := if s.tioHasClone then TioGetter.v3_15 else TioGetter.old
    (cls, { bio := bio, getter := some g, tio := none, next_bio := none }, true)

/-- Getter `_get_clone_bio_tio_old`: cast the bio field `bi_private` to
`dm_target_io *` (the cast keeps the pointer word). -/
def tioGetterOld (h : Heap) (bio : Addr) : Except DErr Addr := do
  let _ ← typesGet bioDeclaredTypes "dm_target_io_p_type"
  pure (h.fields bio "bi_private")

/-- Getter `_get_clone_bio_tio_3_15`:
the back-calculation `container_of` applied to the bio field
`bi_private`, with the type attribute `dm_clone_bio_info_p_type` and
the field named clone
— it asks the class's `Types` for `dm_clone_bio_info_p_type`, a type
the class never declared. -/
def tioGetter_3_15 (s : Session) (h : Heap) (bio : Addr) : Except DErr Addr := do
  let _ ← typesGet bioDeclaredTypes "dm_clone_bio_info_p_type"
  pure (container_of s (h.fields bio "bi_private") "dm_clone_bio_info" "clone")

def tioGetterRun (s : Session) (h : Heap) (g : TioGetter) (bio : Addr) :
    Except DErr Addr :=
  match g with
  | .old => tioGetterOld h bio
  | .v3_15 => tioGetter_3_15 s h bio

/-- Method `ClonedBioDecoder.interpret`:
`self.tio = self._get_clone_bio_tio(self.bio)`;
then set the attribute next_bio to the bio reached from the tracking
object through its field io and that field of the parent named bio. -/
def bioInterpret (cls : BioClassState) (s : Session) (h : Heap)
    (st : BioDecoderState) : Except DErr BioDecoderState := do
  let g ← pyGetAttr (pyLookupAttr cls.getterAttr st.getter)
  let tio ← tioGetterRun s h g st.bio
  pure { st with tio := some tio,
                 next_bio := some (h.fields (h.fields tio "io") "bio") }

/-- Method `ClonedBioDecoder.__str__`: returns the description formatted from
the bio's address, both device names and both sector numbers; it reads
`self.next_bio`, a derived attribute. -/
def bioStr (s : Session) (h : Heap) (st : BioDecoderState) : Except DErr String := do
  let nb ← pyGetAttr st.next_bio
  pure (hexStr st.bio ++ " bio: device mapper clone: " ++
    s.blockDeviceName (h.fields st.bio "bi_bdev") ++ "[" ++
    toString (h.fields st.bio "bi_sector") ++ "] -> " ++
    s.blockDeviceName (h.fields nb "bi_bdev") ++ "[" ++
    toString (h.fields nb "bi_sector") ++ "]")

/-- Method `ClonedBioDecoder.__next__`: decode the ancestor bio stored
in the attribute next_bio. -/
def bioNext (s : Session) (st : BioDecoderState) : Except DErr Nat := do
  let nb ← pyGetAttr st.next_bio
  pure (s.decodeBio nb)

/-! ### Operation sequences

A caller may call the three public operations in any order; only
`interpret()` assigns attributes, and a raising `interpret()` propagates
before its first assignment, so a failed call leaves the instance
unchanged. -/

inductive DecOp where
  | interpretOp
  | describeOp
  | advanceOp

def reqStep (cls : ReqClassState) (s : Session) (h : Heap)
    (st : ReqDecoderState) : DecOp → ReqDecoderState
  | .interpretOp =>
    match reqInterpret cls s h st with
    | .ok st' => st'
    | .error _ => st
  | .describeOp => st
  | .advanceOp => st

def reqRunOps (cls : ReqClassState) (s : Session) (h : Heap)
    (ops : List DecOp) (st : ReqDecoderState) : ReqDecoderState :=
  ops.foldl (reqStep cls s h) st

def bioStep (cls : BioClassState) (s : Session) (h : Heap)
    (st : BioDecoderState) : DecOp → BioDecoderState
  | .interpretOp =>
    match bioInterpret cls s h st with
    | .ok st' => st'
    | .error _ => st
  | .describeOp => st
  | .advanceOp => st

def bioRunOps (cls : BioClassState) (s : Session) (h : Heap)
    (ops : List DecOp) (st : BioDecoderState) : BioDecoderState :=
  ops.foldl (bioStep cls s h) st

/-! ### Concrete fixtures

A small computable snapshot used to evaluate the decoders on concrete
inputs.  Field reads are synthetic but injective enough to tell objects
and fields apart. -/

def testHeap : Heap := { fields := fun a f => a * 100 + f.length }

/-- A session whose kernel predates the embedded clone fields: neither
probed type contains a field named clone. -/
def oldSession : Session :=
  { rqInfoHasClone := false
    tioHasClone := false
    offsetOf := fun _ _ => 16
    blockDeviceName := fun a => "dm-" ++ toString a
    decodeBio := fun a => a + 1 }

/-- A session whose kernel has the embedded clone fields in both probed
types. -/
def newSession : Session :=
  { oldSession with rqInfoHasClone := true, tioHasClone := true }

/-- The request decoder instance that interpreting the bio at address
100 under `oldSession` and `testHeap` produces. -/
def reqTestState : ReqDecoderState :=
  { bio := 100, getter := some RqGetter.old,
    info := some 10010, tio := some 1001003 }

/-- The bio decoder instance that interpreting the bio at address 100
under `oldSession` and `testHeap` produces. -/
def bioTestState : BioDecoderState :=
  { bio := 100, getter := some TioGetter.old,
    tio := some 10010, next_bio := some 100100203 }

/-- The number of writes a setup routine performs to a given register
name. -/
def writeCount (ws : List (String × Nat)) (n : String) : Nat :=
  ws.countP (fun w => decide (w.1 = n))

/-! ## Helper lemmas -/

theorem regBank_nil (init : String → Option Nat) : regBank init [] = init := rfl

theorem regBank_cons (init : String → Option Nat) (w : String × Nat)
    (ws : List (String × Nat)) :
    regBank init (w :: ws) = regBank (regWrite init w) ws := rfl

theorem regBank_not_mem (init : String → Option Nat) (ws : List (String × Nat))
    (n : String) (h : n ∉ ws.map Prod.fst) : regBank init ws n = init n := by
  induction ws generalizing init with
  | nil => rfl
  | cons w ws ih =>
    simp only [List.map_cons, List.mem_cons, not_or] at h
    rw [regBank_cons, ih _ h.2, regWrite, if_neg h.1]

theorem regBank_mem_nodup (init : String → Option Nat) (ws : List (String × Nat))
    (n : String) (v : Nat) (hnd : (ws.map Prod.fst).Nodup) (hmem : (n, v) ∈ ws) :
    regBank init ws n = some v := by
  induction ws generalizing init with
  | nil => cases hmem
  | cons w ws ih =>
    simp only [List.map_cons, List.nodup_cons] at hnd
    rcases List.mem_cons.mp hmem with h | h
    · subst h
      rw [regBank_cons, regBank_not_mem _ _ _ hnd.1, regWrite, if_pos rfl]
    · have hne : n ≠ w.1 := by
        intro he
        exact hnd.1 (he ▸ List.mem_map_of_mem Prod.fst h)
      rw [regBank_cons]
      exact ih _ hnd.2 h

theorem writeCount_nil (n : String) : writeCount [] n = 0 := rfl

theorem writeCount_not_mem (ws : List (String × Nat)) (n : String)
    (h : n ∉ ws.map Prod.fst) : writeCount ws n = 0 := by
  induction ws with
  | nil => rfl
  | cons w ws ih =>
    simp only [List.map_cons, List.mem_cons, not_or] at h
    unfold writeCount at ih ⊢
    rw [List.countP_cons]
    have hne : ¬ w.1 = n := fun he => h.1 he.symm
    simp [hne, ih h.2]

theorem writeCount_mem_nodup (ws : List (String × Nat)) (n : String) (v : Nat)
    (hnd : (ws.map Prod.fst).Nodup) (hmem : (n, v) ∈ ws) : writeCount ws n = 1 := by
  induction ws with
  | nil => cases hmem
  | cons w ws ih =>
    simp only [List.map_cons, List.nodup_cons] at hnd
    unfold writeCount at ih ⊢
    rw [List.countP_cons]
    rcases List.mem_cons.mp hmem with h | h
    · subst h
      have h0 : writeCount ws n = 0 := writeCount_not_mem ws n hnd.1
      unfold writeCount at h0
      simp [h0]
    · have hne : w.1 ≠ n := by
        intro he
        exact hnd.1 (he ▸ List.mem_map_of_mem Prod.fst h)
      simp [hne, ih hnd.2 h]

theorem reqInterpret_ok_shape (cls : ReqClassState) (s : Session) (h : Heap)
    (st st' : ReqDecoderState) (hok : reqInterpret cls s h st = .ok st') :
    ∃ info, st' = { st with info := some info, tio := some (h.fields info "tio") } := by
  unfold reqInterpret at hok
  simp only [Bind.bind] at hok
  cases hg : pyGetAttr (pyLookupAttr cls.getterAttr st.getter) with
  | error e =>
    rw [hg] at hok
    simp only [Except.bind] at hok
    exact absurd hok (by simp)
  | ok g =>
    rw [hg] at hok
    simp only [Except.bind] at hok
    cases hi : reqGetterRun s h g st.bio with
    | error e =>
      rw [hi] at hok
      simp only [Except.bind] at hok
      exact absurd hok (by simp)
    | ok info =>
      rw [hi] at hok
      simp only [Except.bind, pure, Except.pure] at hok
      injection hok with h2
      exact ⟨info, h2.symm⟩

theorem bioInterpret_ok_shape (cls : BioClassState) (s : Session) (h : Heap)
    (st st' : BioDecoderState) (hok : bioInterpret cls s h st = .ok st') :
    ∃ tio, st' = { st with tio := some tio,
                           next_bio := some (h.fields (h.fields tio "io") "bio") } := by
  unfold bioInterpret at hok
  simp only [Bind.bind] at hok
  cases hg : pyGetAttr (pyLookupAttr cls.getterAttr st.getter) with
  | error e =>
    rw [hg] at hok
    simp only [Except.bind] at hok
    exact absurd hok (by simp)
  | ok g =>
    rw [hg] at hok
    simp only [Except.bind] at hok
    cases hi : tioGetterRun s h g st.bio with
    | error e =>
      rw [hi] at hok
      simp only [Except.bind] at hok
      exact absurd hok (by simp)
    | ok tio =>
      rw [hi] at hok
      simp only [Except.bind, pure, Except.pure] at hok
      injection hok with h2
      exact ⟨tio, h2.symm⟩

theorem reqDecoderInit_state (cls : ReqClassState) (s : Session) (bio : Addr) :
    (reqDecoderInit cls s bio).2.1.bio = bio ∧
    (reqDecoderInit cls s bio).2.1.info = none ∧
    (reqDecoderInit cls s bio).2.1.tio = none := by
  obtain ⟨ga⟩ := cls
  cases ga <;> exact ⟨rfl, rfl, rfl⟩

theorem bioDecoderInit_state (cls : BioClassState) (s : Session) (bio : Addr) :
    (bioDecoderInit cls s bio).2.1.bio = bio ∧
    (bioDecoderInit cls s bio).2.1.tio = none ∧
    (bioDecoderInit cls s bio).2.1.next_bio = none := by
  obtain ⟨ga⟩ := cls
  cases ga <;> exact ⟨rfl, rfl, rfl⟩

theorem reqStep_bio (cls : ReqClassState) (s : Session) (h : Heap)
    (st : ReqDecoderState) (op : DecOp) : (reqStep cls s h st op).bio = st.bio := by
  cases op with
  | interpretOp =>
    unfold reqStep
    cases hr : reqInterpret cls s h st with
    | error e => rfl
    | ok st' =>
      obtain ⟨info, hshape⟩ := reqInterpret_ok_shape cls s h st st' hr
      simp [hshape]
  | describeOp => rfl
  | advanceOp => rfl

theorem bioStep_bio (cls : BioClassState) (s : Session) (h : Heap)
    (st : BioDecoderState) (op : DecOp) : (bioStep cls s h st op).bio = st.bio := by
  cases op with
  | interpretOp =>
    unfold bioStep
    cases hr : bioInterpret cls s h st with
    | error e => rfl
    | ok st' =>
      obtain ⟨tio, hshape⟩ := bioInterpret_ok_shape cls s h st st' hr
      simp [hshape]
  | describeOp => rfl
  | advanceOp => rfl

theorem reqRunOps_bio (cls : ReqClassState) (s : Session) (h : Heap)
    (ops : List DecOp) (st : ReqDecoderState) :
    (reqRunOps cls s h ops st).bio = st.bio := by
  induction ops generalizing st with
  | nil => rfl
  | cons op ops ih =>
    show (reqRunOps cls s h ops (reqStep cls s h st op)).bio = st.bio
    rw [ih (reqStep cls s h st op), reqStep_bio]

theorem bioRunOps_bio (cls : BioClassState) (s : Session) (h : Heap)
    (ops : List DecOp) (st : BioDecoderState) :
    (bioRunOps cls s h ops st).bio = st.bio := by
  induction ops generalizing st with
  | nil => rfl
  | cons op ops ih =>
    show (bioRunOps cls s h ops (bioStep cls s h st op)).bio = st.bio
    rw [ih (bioStep cls s h st op), bioStep_bio]

/-! ## Claim theorems -/

/-- Claim C2: for every Scheduled thread, `setup_thread_scheduled` sets
the stack pointer to the saved stack-pointer field of the task's
saved-context record, the frame pointer to the word read at that
stack-pointer address, and the five callee-saved registers rbx, r12,
r13, r14, r15 to the words at offsets one to five word-widths below the
frame pointer — each final value a pure function of the memory
snapshot. -/
theorem setup_thread_scheduled_registers_from_snapshot
    (arch : X8664Arch) (mem : Mem) (task : TaskStruct)
    (init : String → Option Nat) :
    regBank init (setupThreadScheduledWrites arch mem task) "rsp" =
      some task.thread_sp ∧
    regBank init (setupThreadScheduledWrites arch mem task) "rbp" =
      some (mem task.thread_sp) ∧
    regBank init (setupThreadScheduledWrites arch mem task) "rbx" =
      some (mem (ptrSubBytes (mem task.thread_sp) (1 * wordSize))) ∧
    regBank init (setupThreadScheduledWrites arch mem task) "r12" =
      some (mem (ptrSubBytes (mem task.thread_sp) (2 * wordSize))) ∧
    regBank init (setupThreadScheduledWrites arch mem task) "r13" =
      some (mem (ptrSubBytes (mem task.thread_sp) (3 * wordSize))) ∧
    regBank init (setupThreadScheduledWrites arch mem task) "r14" =
      some (mem (ptrSubBytes (mem task.thread_sp) (4 * wordSize))) ∧
    regBank init (setupThreadScheduledWrites arch mem task) "r15" =
      some (mem (ptrSubBytes (mem task.thread_sp) (5 * wordSize))) := by
  refine ⟨rfl, rfl, rfl, rfl, rfl, rfl, rfl⟩

/-- Claim C3: for every Active thread, `setup_thread_active` copies each
register present in the task's raw snapshot into the thread's bank
exactly once, skips the four excluded registers entirely, and writes no
register absent from the snapshot. -/
theorem setup_thread_active_copies_except_exclusions
    (regs : List (String × Nat)) (init : String → Option Nat)
    (hnd : (regs.map Prod.fst).Nodup) :
    (∀ name v, (name, v) ∈ regs → name ∉ excludedRegisters →
      writeCount (setupThreadActiveWrites regs) name = 1 ∧
      regBank init (setupThreadActiveWrites regs) name = some v) ∧
    (∀ name, name ∈ excludedRegisters →
      writeCount (setupThreadActiveWrites regs) name = 0) ∧
    (∀ name, name ∉ regs.map Prod.fst →
      writeCount (setupThreadActiveWrites regs) name = 0 ∧
      regBank init (setupThreadActiveWrites regs) name = init name) := by
  have hsub : List.Sublist ((setupThreadActiveWrites regs).map Prod.fst)
      (regs.map Prod.fst) :=
    (List.filter_sublist regs).map Prod.fst
  have hndw : ((setupThreadActiveWrites regs).map Prod.fst).Nodup :=
    hnd.sublist hsub
  refine ⟨?_, ?_, ?_⟩
  · intro name v hmem hex
    have hmemw : (name, v) ∈ setupThreadActiveWrites regs := by
      refine List.mem_filter.mpr ⟨hmem, ?_⟩
      exact decide_eq_true hex
    exact ⟨writeCount_mem_nodup _ name v hndw hmemw,
           regBank_mem_nodup init _ name v hndw hmemw⟩
  · intro name hex
    refine writeCount_not_mem _ name ?_
    intro hmem
    obtain ⟨w, hw, hweq⟩ := List.mem_map.mp hmem
    have := (List.mem_filter.mp hw).2
    rw [hweq] at this
    exact (of_decide_eq_true this) hex
  · intro name hnm
    have hnmw : name ∉ (setupThreadActiveWrites regs).map Prod.fst :=
      fun hc => hnm (hsub.subset hc)
    exact ⟨writeCount_not_mem _ name hnmw, regBank_not_mem init _ name hnmw⟩

/-- Witness for claim C3 at a concrete snapshot: rip is copied once with
its snapshot value, the excluded gs_base is never written, and the
absent rax is never written. -/
theorem setup_thread_active_copies_except_exclusions_witness :
    (writeCount (setupThreadActiveWrites [("rip", 7), ("gs_base", 9)]) "rip" = 1 ∧
     regBank (fun _ => none) (setupThreadActiveWrites [("rip", 7), ("gs_base", 9)])
       "rip" = some 7) ∧
    writeCount (setupThreadActiveWrites [("rip", 7), ("gs_base", 9)]) "gs_base" = 0 ∧
    writeCount (setupThreadActiveWrites [("rip", 7), ("gs_base", 9)]) "rax" = 0 := by
  have H := setup_thread_active_copies_except_exclusions
    [("rip", 7), ("gs_base", 9)] (fun _ => none) (by decide)
  exact ⟨H.1 "rip" 7 (by decide) (by decide),
         H.2.1 "gs_base" (by decide),
         (H.2.2 "rax" (by decide)).1⟩

/-- Claim C7: after `setup_thread_scheduled`, every Scheduled thread's
program counter equals the single canonical thread_return address
resolved once at architecture construction — the same address for every
Scheduled thread of the session. -/
theorem scheduled_rip_canonical_symbol
    (lk : String → Option Nat) (arch : X8664Arch)
    (harch : mkX8664Arch lk = some arch)
    (mem mem' : Mem) (task task' : TaskStruct)
    (init init' : String → Option Nat) :
    lk "thread_return" = some arch.rip ∧
    regBank init (setupThreadScheduledWrites arch mem task) "rip" =
      some arch.rip ∧
    regBank init' (setupThreadScheduledWrites arch mem' task') "rip" =
      some arch.rip := by
  refine ⟨?_, rfl, rfl⟩
  unfold mkX8664Arch at harch
  cases hl : lk "thread_return" with
  | none => rw [hl] at harch; cases harch
  | some a =>
    rw [hl] at harch
    have h2 : ({ rip := a } : X8664Arch) = arch := Option.some.inj harch
    rw [← h2]

/-- Witness for claim C7: a concrete symbol table resolving
thread_return to address 77 yields rip 77 for two different scheduled
threads. -/
theorem scheduled_rip_canonical_symbol_witness :
    (fun n => if n = "thread_return" then some 77 else none) "thread_return" =
      some 77 ∧
    regBank (fun _ => none)
      (setupThreadScheduledWrites { rip := 77 } (fun _ => 0) { thread_sp := 3 })
      "rip" = some 77 ∧
    regBank (fun _ => some 5)
      (setupThreadScheduledWrites { rip := 77 } (fun a => a + 1) { thread_sp := 9 })
      "rip" = some 77 :=
  scheduled_rip_canonical_symbol
    (fun n => if n = "thread_return" then some 77 else none) { rip := 77 } rfl
    (fun _ => 0) (fun a => a + 1) { thread_sp := 3 } { thread_sp := 9 }
    (fun _ => none) (fun _ => some 5)

/-- Claim C8: `setup_thread_scheduled` writes exactly the ten registers
rsp, rbp, rip, rbx, r12, r13, r14, r15, cs and ss — the segment
selectors receiving the fixed kernel-mode values 2*8 and 3*8 — and
leaves every other register of the bank at its initial, undefined
contents. -/
theorem setup_thread_scheduled_writes_exactly_ten
    (arch : X8664Arch) (mem : Mem) (task : TaskStruct)
    (init : String → Option Nat) :
    (setupThreadScheduledWrites arch mem task).map Prod.fst =
      scheduledWrittenNames ∧
    regBank init (setupThreadScheduledWrites arch mem task) "cs" =
      some (2 * 8) ∧
    regBank init (setupThreadScheduledWrites arch mem task) "ss" =
      some (3 * 8) ∧
    (∀ n, n ∉ scheduledWrittenNames →
      regBank init (setupThreadScheduledWrites arch mem task) n = init n) := by
  refine ⟨rfl, rfl, rfl, ?_⟩
  intro n hn
  refine regBank_not_mem init _ n ?_
  have hmap : (setupThreadScheduledWrites arch mem task).map Prod.fst =
      scheduledWrittenNames := rfl
  rw [hmap]
  exact hn

/-- Witness for claim C8: on a concrete thread, the unwritten register
rax keeps its initial undefined contents. -/
theorem setup_thread_scheduled_writes_exactly_ten_witness :
    regBank (fun _ => none)
      (setupThreadScheduledWrites { rip := 77 } (fun _ => 4) { thread_sp := 3 })
      "rax" = none :=
  (setup_thread_scheduled_writes_exactly_ten { rip := 77 } (fun _ => 4)
    { thread_sp := 3 } (fun _ => none)).2.2.2 "rax" (by decide)

/-- Claim C6: for a request-based clone bio whose private field points
to a request-clone-info block (the old, non-embedded layout),
`interpret` stores the block pointer, exposes the block's tio field as
the tracking object, and `advance` returns the decode of the descriptor
held in the block's orig field. -/
theorem req_old_layout_interpret_advance
    (s : Session) (h : Heap) (bio : Addr)
    (hold : s.rqInfoHasClone = false) :
    reqInterpret (reqDecoderInit reqClassInit s bio).1 s h
      (reqDecoderInit reqClassInit s bio).2.1 =
      .ok { bio := bio, getter := some RqGetter.old,
            info := some (h.fields bio "bi_private"),
            tio := some (h.fields (h.fields bio "bi_private") "tio") } ∧
    reqNext s h
      { bio := bio, getter := some RqGetter.old,
        info := some (h.fields bio "bi_private"),
        tio := some (h.fields (h.fields bio "bi_private") "tio") } =
      .ok (s.decodeBio (h.fields (h.fields bio "bi_private") "orig")) := by
  constructor
  · simp [reqDecoderInit, reqClassInit, pyLookupAttr, hold, reqInterpret,
      pyGetAttr, reqGetterRun, reqGetterOld, typesGet, reqDeclaredTypes,
      Bind.bind, Except.bind, pure, Except.pure]
  · rfl

/-- Witness for claim C6 on the concrete old-layout session: the
interpreted attributes and the advanced descriptor computed from the
concrete snapshot. -/
theorem req_old_layout_interpret_advance_witness :
    reqInterpret (reqDecoderInit reqClassInit oldSession 100).1 oldSession
      testHeap (reqDecoderInit reqClassInit oldSession 100).2.1 =
      .ok { bio := 100, getter := some RqGetter.old,
            info := some (testHeap.fields 100 "bi_private"),
            tio := some (testHeap.fields (testHeap.fields 100 "bi_private") "tio") } ∧
    reqNext oldSession testHeap
      { bio := 100, getter := some RqGetter.old,
        info := some (testHeap.fields 100 "bi_private"),
        tio := some (testHeap.fields (testHeap.fields 100 "bi_private") "tio") } =
      .ok (oldSession.decodeBio
        (testHeap.fields (testHeap.fields 100 "bi_private") "orig")) :=
  req_old_layout_interpret_advance oldSession testHeap 100 rfl

/-- Claim C9: reading a derived attribute (the tracking object, and for
the bio-based variant the ancestor bio) or calling the advance
operation on a freshly constructed decoder, before `interpret` has run,
raises an error rather than returning a stale or default value; after a
successful `interpret`, those reads succeed. -/
theorem derived_reads_fail_before_interpret
    (cls : ReqClassState) (bcls : BioClassState) (s : Session) (h : Heap)
    (bio : Addr) :
    pyGetAttr (reqDecoderInit cls s bio).2.1.tio =
      (.error .attributeError : Except DErr Addr) ∧
    reqNext s h (reqDecoderInit cls s bio).2.1 = .error .attributeError ∧
    pyGetAttr (bioDecoderInit bcls s bio).2.1.tio =
      (.error .attributeError : Except DErr Addr) ∧
    pyGetAttr (bioDecoderInit bcls s bio).2.1.next_bio =
      (.error .attributeError : Except DErr Addr) ∧
    bioNext s (bioDecoderInit bcls s bio).2.1 = .error .attributeError ∧
    (∀ st', reqInterpret cls s h (reqDecoderInit cls s bio).2.1 = .ok st' →
      pyGetAttr st'.tio = (.ok (h.fields (Option.getD st'.info 0) "tio") :
        Except DErr Addr) ∧
      reqNext s h st' =
        .ok (s.decodeBio (h.fields (Option.getD st'.info 0) "orig"))) ∧
    (∀ st', bioInterpret bcls s h (bioDecoderInit bcls s bio).2.1 = .ok st' →
      pyGetAttr st'.tio = (.ok (Option.getD st'.tio 0) : Except DErr Addr) ∧
      bioNext s st' = .ok (s.decodeBio (Option.getD st'.next_bio 0))) := by
  obtain ⟨hrb, hri, hrt⟩ := reqDecoderInit_state cls s bio
  obtain ⟨hbb, hbt, hbn⟩ := bioDecoderInit_state bcls s bio
  refine ⟨?_, ?_, ?_, ?_, ?_, ?_, ?_⟩
  · rw [hrt]; rfl
  · unfold reqNext
    rw [hri]
    rfl
  · rw [hbt]; rfl
  · rw [hbn]; rfl
  · unfold bioNext
    rw [hbn]
    rfl
  · intro st' hok
    obtain ⟨info, hshape⟩ := reqInterpret_ok_shape _ _ _ _ _ hok
    subst hshape
    exact ⟨rfl, rfl⟩
  · intro st' hok
    obtain ⟨tio, hshape⟩ := bioInterpret_ok_shape _ _ _ _ _ hok
    subst hshape
    exact ⟨rfl, rfl⟩

/-- Witness for claim C9 on the concrete old-layout session: the
pre-interpret reads fail with the attribute error and the
post-interpret reads succeed on the concrete interpreted state. -/
theorem derived_reads_fail_before_interpret_witness :
    reqNext oldSession testHeap
      (reqDecoderInit reqClassInit oldSession 100).2.1 =
      .error .attributeError ∧
    bioNext oldSession (bioDecoderInit bioClassInit oldSession 100).2.1 =
      .error .attributeError ∧
    (pyGetAttr reqTestState.tio =
      (.ok (testHeap.fields (Option.getD reqTestState.info 0) "tio") :
        Except DErr Addr) ∧
     reqNext oldSession testHeap reqTestState =
      .ok (oldSession.decodeBio
        (testHeap.fields (Option.getD reqTestState.info 0) "orig"))) ∧
    (pyGetAttr bioTestState.tio =
      (.ok (Option.getD bioTestState.tio 0) : Except DErr Addr) ∧
     bioNext oldSession bioTestState =
      .ok (oldSession.decodeBio (Option.getD bioTestState.next_bio 0))) := by
  have H := derived_reads_fail_before_interpret reqClassInit bioClassInit
    oldSession testHeap 100
  exact ⟨H.2.1, H.2.2.2.2.1,
         H.2.2.2.2.2.1 reqTestState rfl,
         H.2.2.2.2.2.2 bioTestState rfl⟩

/-- Claim C10: for both decoder variants the bio stored at construction
is never modified: after any sequence of interpret, describe and
advance calls the decoder's bio attribute still equals the bio passed
to the constructor. -/
theorem bio_attribute_immutable_under_ops
    (cls : ReqClassState) (bcls : BioClassState) (s : Session) (h : Heap)
    (b : Addr) (ops ops' : List DecOp) :
    (reqRunOps cls s h ops (reqDecoderInit cls s b).2.1).bio = b ∧
    (bioRunOps bcls s h ops' (bioDecoderInit bcls s b).2.1).bio = b := by
  constructor
  · rw [reqRunOps_bio]
    exact (reqDecoderInit_state cls s b).1
  · rw [bioRunOps_bio]
    exact (bioDecoderInit_state bcls s b).1

/-- Claim C1 (code-bug evidence): the structural probe is not memoized
across constructions.  Constructing a second decoder of the same
variant in the same session runs the probe again, because the
constructor assigns the chosen getter to the instance while the class
attribute it tests stays None. -/
theorem probe_reruns_on_every_construction :
    (reqDecoderInit reqClassInit oldSession 1).2.2 = true ∧
    (reqDecoderInit (reqDecoderInit reqClassInit oldSession 1).1 oldSession 2).2.2
      = true ∧
    (reqDecoderInit reqClassInit oldSession 1).1.getterAttr = none ∧
    (bioDecoderInit bioClassInit oldSession 1).2.2 = true ∧
    (bioDecoderInit (bioDecoderInit bioClassInit oldSession 1).1 oldSession 2).2.2
      = true ∧
    (bioDecoderInit bioClassInit oldSession 1).1.getterAttr = none :=
  ⟨rfl, rfl, rfl, rfl, rfl, rfl⟩

/-- Claim C4 (code-bug evidence): under the embedded-clone layout the
bio decoder's probe selects the 3.15 strategy, but that strategy asks
the class's type collection for dm_clone_bio_info_p_type — a type the
class never declares — so interpreting any bio raises a resolution
error instead of back-calculating the tracking structure; under the
non-embedded layout the direct-cast strategy succeeds and the ancestor
is the bio reached through the tracking object's parent I/O context. -/
theorem embedded_layout_strategy_raises :
    (bioDecoderInit bioClassInit newSession 100).2.1.getter =
      some TioGetter.v3_15 ∧
    bioInterpret (bioDecoderInit bioClassInit newSession 100).1 newSession
      testHeap (bioDecoderInit bioClassInit newSession 100).2.1 =
      .error (.resolutionError "dm_clone_bio_info_p_type") ∧
    bioInterpret (bioDecoderInit bioClassInit oldSession 100).1 oldSession
      testHeap (bioDecoderInit bioClassInit oldSession 100).2.1 =
      .ok { bio := 100, getter := some TioGetter.old,
            tio := some (testHeap.fields 100 "bi_private"),
            next_bio := some (testHeap.fields
              (testHeap.fields (testHeap.fields 100 "bi_private") "io") "bio") } :=
  ⟨rfl, rfl, rfl⟩

/-- Claim C5 (code-bug evidence): the bio-based describe operation
returns the one-line string with the hexadecimal descriptor address,
device names and both sector numbers, but the request-based describe
operation computes its description and discards it, returning None for
every decoder state. -/
theorem req_describe_returns_none :
    (∀ (s : Session) (h : Heap) (st : ReqDecoderState), reqStr s h st = none) ∧
    bioStr oldSession testHeap bioTestState =
      .ok "64 bio: device mapper clone: dm-10007[10009] -> dm-10010020307[10010020309]" ∧
    reqStrComputed oldSession testHeap reqTestState =
      "64 bio: Request-based Device Mapper on dm-10007" :=
  ⟨fun _ _ _ => rfl, rfl, rfl⟩

end CrashPython
